import Mathlib

/-!
Verification development for the `aifastcommerce` conversational assistant.

Shallow embedding of the response-extraction policy, interrupt payload
construction and tool dispatch found in:
  - src/modules/assistant/routes.py
  - src/backend/assistant/routes.py
  - src/modules/assistant/agent.py

Python strings are modelled as Lean `String`; the Python `str` methods used
by the source (`lower`, `strip`, `startswith`, `endswith`, `in`) are
re-implemented below over the character list `String.data`, because the
corresponding Lean standard-library functions do not reduce inside the
kernel.  Fallible Python code (expressions that can raise) is modelled in
the `Except PyError` monad.
-/

deriving instance DecidableEq for Except

/-- Python runtime errors that the embedded code can raise. -/
inductive PyError where
  | typeError
  | indexError
deriving DecidableEq, Repr

/-- Models Python `str.lower` for one character (ASCII, which is all the
source's filter phrases use). -/
def pyLowerChar (c : Char) : Char :=
  if 'A' ≤ c && c ≤ 'Z' then Char.ofNat (c.toNat + 32) else c

/-- Models Python `str.lower`. -/
def pyLower (s : String) : String := String.mk (s.data.map pyLowerChar)

/-- Whitespace characters stripped by Python `str.strip`. -/
def isWSChar (c : Char) : Bool :=
  c == ' ' || c == '\t' || c == '\n' || c == '\r' || c == '\x0b' || c == '\x0c'

/-- Models Python `str.strip` (no argument form). -/
def pyStrip (s : String) : String :=
  String.mk (((s.data.dropWhile isWSChar).reverse.dropWhile isWSChar).reverse)

/-- Models Python `str.startswith`. -/
def pyStartsWith (s pat : String) : Bool := pat.data.isPrefixOf s.data

/-- Models Python `str.endswith`; used to embed `re.match(r".\x2a_agent$", x)`,
which for the newline-free agent names in play is exactly a suffix test. -/
def pyEndsWith (s pat : String) : Bool := pat.data.reverse.isPrefixOf s.data.reverse

/-- Contiguous-sublist test on character lists. -/
def containsSeq (pat : List Char) : List Char → Bool
  | [] => pat.isEmpty
  | c :: rest => pat.isPrefixOf (c :: rest) || containsSeq pat rest

/-- Models Python `pat in s` substring membership. -/
def pyContains (s pat : String) : Bool := containsSeq pat.data s.data

/-- Message roles (langchain message classes: HumanMessage, AIMessage, ...). -/
inductive Role where
  | human
  | ai
  | system
  | toolResult
deriving DecidableEq, Repr

/-- A structured tool-call intent as `call_tools` in
src/modules/assistant/agent.py consumes it: an object with `.name` and
`.arguments` (the dummy-object shim of lines 160-164 constructs exactly
this shape).  Argument mappings are modelled as association lists. -/
structure ToolCallIntent where
  name : String
  arguments : List (String × String)
deriving DecidableEq, Repr

/-- The `additional_kwargs["function_call"]` entry: a dict with a `"name"`
key and an optional `"arguments"` key holding raw JSON text
(`func_call.get("arguments", "\x7b\x7d")`). -/
structure FunctionCall where
  name : String
  arguments : Option String
deriving DecidableEq, Repr

/-- A langchain message as the embedded code observes it: role (the message
class), textual content, the optional `name` attribute (a langchain
`BaseMessage` always has the field, defaulting to Python `None`, modelled
as `none`), the `tool_calls` list and the optional
`additional_kwargs["function_call"]` entry. -/
structure Msg where
  role : Role
  content : String
  name : Option String
  tool_calls : List ToolCallIntent
  function_call : Option FunctionCall
deriving DecidableEq, Repr

/-- An `AIMessage(content=c, name=n)` with no tool calls. -/
def aiMsg (content : String) (name : Option String) : Msg :=
  ⟨Role.ai, content, name, [], none⟩

/-- A `HumanMessage(content=c)`. -/
def humanMsg (content : String) : Msg :=
  ⟨Role.human, content, none, [], none⟩

/-- Models `re.match(r".\x2a_agent$", getattr(msg, "name", ""))` applied to
the message's `name` attribute.  A langchain message always has the `name`
field, so the `getattr` default is dead code and the value handed to
`re.match` is either a string or Python `None`; `re.match` raises
`TypeError` on `None`. -/
def agentNameMatch : Option String → Except PyError Bool
  | none => Except.error PyError.typeError
  | some n => Except.ok (pyEndsWith n "_agent")

namespace ModulesAssistant

/-- Embeds `is_meaningful` (src/modules/assistant/routes.py lines 30-40). -/
def is_meaningful (m : Msg) : Bool :=
  if m.role ≠ Role.ai ∨ m.content = "" then false
  else
    let c := pyLower (pyStrip m.content)
    m.tool_calls.isEmpty
      && !(pyContains c "transferred")
      && !(pyStartsWith c "transferring")
      && !(pyStartsWith c "if you have any further")
      && !(pyStartsWith c "i have successfully")

/-- First loop of `extract_final_response` (lines 42-48): scan the reversed
transcript for an AIMessage whose `name` matches the `_agent` suffix regex
and which is meaningful.  The regex call is evaluated before
`is_meaningful` and raises on a `None` name. -/
def extractScan1 : List Msg → Except PyError (Option String)
  | [] => Except.ok none
  | m :: rest =>
    if m.role = Role.ai then
      match agentNameMatch m.name with
      | Except.error e => Except.error e
      | Except.ok b =>
        if b && is_meaningful m then Except.ok (some (pyStrip m.content))
        else extractScan1 rest
    else extractScan1 rest

/-- Second loop (lines 50-52): first meaningful message in reversed order. -/
def extractScan2 : List Msg → Option String
  | [] => none
  | m :: rest =>
    if is_meaningful m then some (pyStrip m.content) else extractScan2 rest

/-- Third loop (lines 54-56): first AIMessage with non-empty content. -/
def extractScan3 : List Msg → Option String
  | [] => none
  | m :: rest =>
    if m.role = Role.ai ∧ m.content ≠ "" then some (pyStrip m.content)
    else extractScan3 rest

/-- Embeds `extract_final_response` (src/modules/assistant/routes.py lines
23-58).  The character-identical function also appears at
src/backend/assistant/routes.py lines 198-233; this single definition
embeds both. -/
def extract_final_response (messages : List Msg) : Except PyError String :=
  match extractScan1 messages.reverse with
  | Except.error e => Except.error e
  | Except.ok (some r) => Except.ok r
  | Except.ok none =>
    match extractScan2 messages.reverse with
    | some r => Except.ok r
    | none =>
      match extractScan3 messages.reverse with
      | some r => Except.ok r
      | none => Except.ok "No meaningful response found."

end ModulesAssistant

namespace BackendAssistant

/-- Embeds `is_meaningful_response` (src/backend/assistant/routes.py lines
25-34).  Note the last two `startswith` tests are applied to the raw
`content`, not to `lower`. -/
def is_meaningful_response (content : String) : Bool :=
  let lower := pyLower content
  !(pyContains lower "transferring")
    && !(pyContains lower "transferred")
    && !(pyStartsWith lower "transferring back to")
    && !(pyStartsWith lower "successfully transferred")
    && !(pyStartsWith content "i have successfully")
    && !(pyStartsWith content "if you have any further")

/-- Embeds `is_valid_ai_message` (src/backend/assistant/routes.py lines
57-63): the `and` chain evaluates `isinstance`, then `content.strip()`
truthiness, then `is_meaningful_response`, then the `_agent` regex, which
raises on a `None` name. -/
def is_valid_ai_message (m : Msg) : Except PyError Bool :=
  if m.role ≠ Role.ai then Except.ok false
  else if pyStrip m.content = "" then Except.ok false
  else if !(is_meaningful_response m.content) then Except.ok false
  else agentNameMatch m.name

end BackendAssistant

/-- The `action_request` entry of a human-interrupt payload, as
src/backend/assistant/routes.py reads it: `\x7b"action": tool_name,
"args": mapping\x7d`. -/
structure ActionRequest where
  action : String
  args : List (String × String)
deriving DecidableEq, Repr

/-- One element of `interrupt.value`: a dict carrying `action_request` and
`description`, the shape the backend route consumes at lines 259-262. -/
structure InterruptValue where
  action_request : ActionRequest
  description : String
deriving DecidableEq, Repr

/-- A langgraph `Interrupt` object.  Its only data field read by the routes
is `value`; the class has no `args` attribute, so
`getattr(interrupt, "args", \x7b\x7d)` always yields the default. -/
structure Interrupt where
  value : List InterruptValue
deriving DecidableEq, Repr

/-- The `interruption` object of the chat response body:
`\x7b"type": ptype, "message": pmessage, "args": pargs\x7d`. -/
structure InterruptionPayload where
  ptype : String
  pmessage : String
  pargs : List (String × String)
deriving DecidableEq, Repr

/-- Result dict of `run_workflow`: the optional `"__interrupt__"` entry
(a list of `Interrupt`s when present) and the `"messages"` entry. -/
structure WorkflowResult where
  interrupts : Option (List Interrupt)
  messages : List Msg
deriving Repr

/-- Modelled from the spec: the `ChatRequest` schema (`.schema` module, not
under src/) with body `\x7bsession_id, message\x7d`; per the spec a missing
`session_id` must reach the handler's 400 check, so the field is optional
(`none` models a missing/null session id). -/
structure ChatRequest where
  session_id : Option String
  message : String
deriving DecidableEq, Repr

/-- Outcome of a chat route handler: an HTTPException with status 400, a
normal `ChatResponse`, an interruption JSON body
`\x7bresponse, interruption\x7d` (we carry the raw `interrupt.value` whose
Python `str()` rendering is the `response` field, via the `strv` renderer
the handlers are parameterised over), or the catch-all 500 JSON response. -/
inductive ChatOutcome where
  | http400 (detail : String)
  | reply (response : String)
  | interrupted (response : String) (payload : InterruptionPayload)
  | err500
deriving DecidableEq, Repr

namespace ModulesAssistant

/-- Body of `chat_with_agent` after the session check
(src/modules/assistant/routes.py lines 76-107): run the workflow; if the
result carries `"__interrupt__"`, answer with a payload whose `type` is the
literal `"create_product"` and whose `args` come from
`getattr(interrupt, "args", \x7b\x7d) or \x7b\x7d` — the `Interrupt` class
has no `args` attribute, so this is always the empty mapping; otherwise
extract the final response (an exception there is caught by the route's
`except Exception` and yields the 500 body).  `strv` models Python `str()`
on `interrupt.value`. -/
def chat_body (strv : List InterruptValue → String)
    (run_workflow : String → String → WorkflowResult)
    (message sid : String) : ChatOutcome :=
  let result := run_workflow message sid
  match result.interrupts with
  | some (i :: _) =>
    ChatOutcome.interrupted (strv i.value)
      { ptype := "create_product", pmessage := strv i.value, pargs := [] }
  | some [] => ChatOutcome.err500
  | none =>
    match extract_final_response result.messages with
    | Except.ok t => ChatOutcome.reply t
    | Except.error _ => ChatOutcome.err500

/-- Embeds `chat_with_agent` (src/modules/assistant/routes.py lines 61-123):
`if not session_id: raise HTTPException(status_code=400, ...)` before any
workflow call. -/
def chat_with_agent (strv : List InterruptValue → String)
    (run_workflow : String → String → WorkflowResult)
    (req : ChatRequest) : ChatOutcome :=
  match req.session_id with
  | none => ChatOutcome.http400 "session_id is required"
  | some sid =>
    if sid = "" then ChatOutcome.http400 "session_id is required"
    else chat_body strv run_workflow req.message sid

end ModulesAssistant

namespace BackendAssistant

/-- Body of the backend `chat_with_agent` after the session check
(src/backend/assistant/routes.py lines 251-286): the workflow is called as
`run_workflow(request.message, "", str(session_id))`; on interruption the
payload's `type` and `args` are read from
`interrupt.value[0]["action_request"]` (an empty `value` list raises
IndexError, caught as the 500 body) and `message` from the value's
`description`. -/
def chat_body (strv : List InterruptValue → String)
    (run_workflow : String → String → String → WorkflowResult)
    (message sid : String) : ChatOutcome :=
  let result := run_workflow message "" sid
  match result.interrupts with
  | some (i :: _) =>
    match i.value with
    | [] => ChatOutcome.err500
    | v :: _ =>
      ChatOutcome.interrupted (strv i.value)
        { ptype := v.action_request.action
          pmessage := v.description
          pargs := v.action_request.args }
  | some [] => ChatOutcome.err500
  | none =>
    match ModulesAssistant.extract_final_response result.messages with
    | Except.ok t => ChatOutcome.reply t
    | Except.error _ => ChatOutcome.err500

/-- Embeds the backend `chat_with_agent` (src/backend/assistant/routes.py
lines 236-302). -/
def chat_with_agent (strv : List InterruptValue → String)
    (run_workflow : String → String → String → WorkflowResult)
    (req : ChatRequest) : ChatOutcome :=
  match req.session_id with
  | none => ChatOutcome.http400 "session_id is required"
  | some sid =>
    if sid = "" then ChatOutcome.http400 "session_id is required"
    else chat_body strv run_workflow req.message sid

/-- Outcome of the streaming chat route: the catch-all 500 JSON body, or a
`StreamingResponse` wrapping `stream_agent_response(user_input=...,
command="", came_from_resume=False)`; the workflow is only invoked inside
the generator, after the session check. -/
inductive StreamOutcome where
  | err500
  | streaming (user_input : String) (came_from_resume : Bool)
deriving DecidableEq, Repr

/-- Embeds `chat_with_agent_stream` (src/backend/assistant/routes.py lines
88-112).  The handler raises `HTTPException(status_code=400, ...)` on a
missing/empty session id, but — unlike both `/chat` handlers — it has no
`except HTTPException: raise` clause, so its bare `except Exception`
catches that exception and the route answers with the
`JSONResponse(status_code=500, ...)` body, never with a 400. -/
def chat_with_agent_stream (req : ChatRequest) : StreamOutcome :=
  match req.session_id with
  | none => StreamOutcome.err500
  | some sid =>
    if sid = "" then StreamOutcome.err500
    else StreamOutcome.streaming req.message false

end BackendAssistant

namespace AssistantAgent

/-- The graph state of src/modules/assistant/agent.py: `AgentState` is a
TypedDict with a `messages` list. -/
structure AgentState where
  messages : List Msg
deriving DecidableEq, Repr

/-- The per-call dispatch inside the `for tool_call in tool_calls` loop of
`call_tools` (src/modules/assistant/agent.py lines 169-182): the three
bound tools are called through their (DB-backed, hence parameterised)
implementations, any other name produces the substitute string
`"Unknown tool: <name>"`. -/
def runTool (viewProduct addToCart placeOrder : List (String × String) → String)
    (tc : ToolCallIntent) : String :=
  if tc.name = "ViewProduct" then viewProduct tc.arguments
  else if tc.name = "AddToCart" then addToCart tc.arguments
  else if tc.name = "PlaceOrder" then placeOrder tc.arguments
  else "Unknown tool: " ++ tc.name

/-- Tail of `call_tools` once the normalised `tool_calls` list is known
(lines 166-185): empty list returns the state unchanged, otherwise each
result is appended as a `HumanMessage`. -/
def dispatchTools (viewProduct addToCart placeOrder : List (String × String) → String)
    (state : AgentState) (tool_calls : List ToolCallIntent) : Except PyError AgentState :=
  if tool_calls.isEmpty then Except.ok state
  else
    Except.ok
      ⟨state.messages ++
        tool_calls.map (fun tc => humanMsg (runTool viewProduct addToCart placeOrder tc))⟩

/-- Embeds `call_tools` (src/modules/assistant/agent.py lines 153-185).
`state["messages"][-1]` raises IndexError on an empty log; when the last
message has no `tool_calls` the legacy `function_call` entry is normalised
through `json.loads` (modelled by the `jsonLoads` parameter, which can
fail) into a single dummy intent. -/
def call_tools (jsonLoads : String → Except PyError (List (String × String)))
    (viewProduct addToCart placeOrder : List (String × String) → String)
    (state : AgentState) : Except PyError AgentState :=
  match state.messages.getLast? with
  | none => Except.error PyError.indexError
  | some last =>
    if last.tool_calls.isEmpty then
      match last.function_call with
      | some fc =>
        match jsonLoads (fc.arguments.getD "\x7b\x7d") with
        | Except.error e => Except.error e
        | Except.ok args =>
          dispatchTools viewProduct addToCart placeOrder state [⟨fc.name, args⟩]
      | none => dispatchTools viewProduct addToCart placeOrder state []
    else dispatchTools viewProduct addToCart placeOrder state last.tool_calls

/-- The final scan of `ecommerce_assistant` (src/modules/assistant/agent.py
lines 207-209): first message, in reversed order, whose content is truthy
and whose stripped content is truthy; its unstripped content is returned. -/
def ecommerceScan : List Msg → Option String
  | [] => none
  | m :: rest =>
    if m.content ≠ "" ∧ pyStrip m.content ≠ "" then some m.content
    else ecommerceScan rest

/-- Embeds the response selection of `ecommerce_assistant`
(src/modules/assistant/agent.py lines 199-210) over the final workflow
state's message list; the graph invocation itself is the external LLM
collaborator and is not part of the selection. -/
def ecommerce_assistant (messages : List Msg) : String :=
  match ecommerceScan messages.reverse with
  | some c => c
  | none => "Sorry, I could not process your request."

/-- The extraction policy exactly as claim C10 words it: the content of the
most recent message of any role whose whitespace-stripped content is
non-empty, else the distinct fallback string. -/
def ecommerce_assistant_policy (messages : List Msg) : String :=
  match messages.reverse.find? (fun m => pyStrip m.content != "") with
  | some m => m.content
  | none => "Sorry, I could not process your request."

end AssistantAgent

/-! Concrete fixtures used by the theorems below. -/

/-- An intercepted `delete_product(sku="ABC")` call as the interrupt engine
surfaces it. -/
def deleteInterrupt : Interrupt :=
  ⟨[⟨⟨"delete_product", [("sku", "ABC")]⟩,
     "About to execute delete_product with sku ABC"⟩]⟩

/-- A trivial renderer standing in for Python `str()` of `interrupt.value`. -/
def strv0 : List InterruptValue → String := fun _ => ""

/-- A workflow (modules signature) whose result is interrupted on the
`delete_product` call. -/
def wfInterrupted : String → String → WorkflowResult :=
  fun _ _ => ⟨some [deleteInterrupt], []⟩

/-- A workflow (backend signature, with the command argument) whose result
is interrupted on the `delete_product` call. -/
def wfInterruptedB : String → String → String → WorkflowResult :=
  fun _ _ _ => ⟨some [deleteInterrupt], []⟩

/-- A chat request with a valid session id. -/
def reqS1 : ChatRequest := ⟨some "s1", "delete product ABC"⟩

/-- A JSON parser stub for `call_tools` fixtures. -/
def jsonLoads0 : String → Except PyError (List (String × String)) :=
  fun _ => Except.ok []

/-- A tool-implementation stub for `call_tools` fixtures. -/
def oracle0 : List (String × String) → String := fun _ => "ok"

/-- An agent state whose last message requests the unbound tool
`delete_product`. -/
def unknownToolState : AssistantAgent.AgentState :=
  ⟨[humanMsg "please delete ABC",
    Msg.mk Role.ai "" none [⟨"delete_product", [("sku", "ABC")]⟩] none]⟩

/-- An agent state whose last message requests a differently named unbound
tool, for the amended-claim witness. -/
def nukeToolState : AssistantAgent.AgentState :=
  ⟨[Msg.mk Role.ai "" none [⟨"NukeDB", []⟩] none]⟩

/-! Helper lemmas about the filter and the scans. -/

/-- A message accepted by `is_meaningful` is an AI message with non-empty
content. -/
theorem is_meaningful_ai_of (m : Msg)
    (h : ModulesAssistant.is_meaningful m = true) :
    m.role = Role.ai ∧ m.content ≠ "" := by
  unfold ModulesAssistant.is_meaningful at h
  split at h
  · simp at h
  · next hcond =>
    push_neg at hcond
    exact hcond

/-- `is_meaningful` rejects empty content. -/
theorem is_meaningful_empty (m : Msg) (h : m.content = "") :
    ModulesAssistant.is_meaningful m = false := by
  unfold ModulesAssistant.is_meaningful
  rw [if_pos (Or.inr h)]

/-- `is_meaningful` rejects non-AI messages. -/
theorem is_meaningful_not_ai (m : Msg) (h : m.role ≠ Role.ai) :
    ModulesAssistant.is_meaningful m = false := by
  unfold ModulesAssistant.is_meaningful
  rw [if_pos (Or.inl h)]

/-- A string returned by the first scan is the stripped content of an AI
message of the scanned list. -/
theorem extractScan1_mem (l : List Msg) (s : String)
    (h : ModulesAssistant.extractScan1 l = Except.ok (some s)) :
    ∃ m, m ∈ l ∧ m.role = Role.ai ∧ s = pyStrip m.content := by
  induction l with
  | nil => simp [ModulesAssistant.extractScan1] at h
  | cons m rest ih =>
    unfold ModulesAssistant.extractScan1 at h
    split at h
    · next hrole =>
      cases hnm : agentNameMatch m.name with
      | error e => rw [hnm] at h; simp at h
      | ok b =>
        rw [hnm] at h
        simp only [] at h
        split at h
        · next =>
          injection h with h
          injection h with h
          exact ⟨m, List.mem_cons_self m rest, hrole, h.symm⟩
        · obtain ⟨m', hm', hrest⟩ := ih h
          exact ⟨m', List.mem_cons_of_mem m hm', hrest⟩
    · obtain ⟨m', hm', hrest⟩ := ih h
      exact ⟨m', List.mem_cons_of_mem m hm', hrest⟩

/-- A string returned by the second scan is the stripped content of an AI
message of the scanned list. -/
theorem extractScan2_mem (l : List Msg) (s : String)
    (h : ModulesAssistant.extractScan2 l = some s) :
    ∃ m, m ∈ l ∧ m.role = Role.ai ∧ s = pyStrip m.content := by
  induction l with
  | nil => simp [ModulesAssistant.extractScan2] at h
  | cons m rest ih =>
    unfold ModulesAssistant.extractScan2 at h
    split at h
    · next hm =>
      injection h with h
      exact ⟨m, List.mem_cons_self m rest, (is_meaningful_ai_of m hm).1, h.symm⟩
    · obtain ⟨m', hm', hrest⟩ := ih h
      exact ⟨m', List.mem_cons_of_mem m hm', hrest⟩

/-- A string returned by the third scan is the stripped content of an AI
message of the scanned list. -/
theorem extractScan3_mem (l : List Msg) (s : String)
    (h : ModulesAssistant.extractScan3 l = some s) :
    ∃ m, m ∈ l ∧ m.role = Role.ai ∧ s = pyStrip m.content := by
  induction l with
  | nil => simp [ModulesAssistant.extractScan3] at h
  | cons m rest ih =>
    unfold ModulesAssistant.extractScan3 at h
    split at h
    · next hm =>
      injection h with h
      exact ⟨m, List.mem_cons_self m rest, hm.1, h.symm⟩
    · obtain ⟨m', hm', hrest⟩ := ih h
      exact ⟨m', List.mem_cons_of_mem m hm', hrest⟩

/-- On a transcript whose AI messages are all empty and named, the first
scan completes and selects nothing. -/
theorem extractScan1_none (l : List Msg)
    (H : ∀ m ∈ l, m.role = Role.ai → m.content = "" ∧ m.name ≠ none) :
    ModulesAssistant.extractScan1 l = Except.ok none := by
  induction l with
  | nil => rfl
  | cons m rest ih =>
    have Hrest : ∀ m' ∈ rest, m'.role = Role.ai → m'.content = "" ∧ m'.name ≠ none :=
      fun m' hm' => H m' (List.mem_cons_of_mem m hm')
    unfold ModulesAssistant.extractScan1
    split
    · next hrole =>
      obtain ⟨hc, hn⟩ := H m (List.mem_cons_self m rest) hrole
      obtain ⟨n, hn'⟩ := Option.ne_none_iff_exists'.mp hn
      rw [hn']
      simp only [agentNameMatch]
      rw [is_meaningful_empty m hc]
      simp [ih Hrest]
    · exact ih Hrest

/-- On a transcript whose AI messages are all empty, the second scan
selects nothing. -/
theorem extractScan2_none (l : List Msg)
    (H : ∀ m ∈ l, m.role = Role.ai → m.content = "") :
    ModulesAssistant.extractScan2 l = none := by
  induction l with
  | nil => rfl
  | cons m rest ih =>
    have Hrest : ∀ m' ∈ rest, m'.role = Role.ai → m'.content = "" :=
      fun m' hm' => H m' (List.mem_cons_of_mem m hm')
    unfold ModulesAssistant.extractScan2
    have hm : ModulesAssistant.is_meaningful m = false := by
      by_cases hrole : m.role = Role.ai
      · exact is_meaningful_empty m (H m (List.mem_cons_self m rest) hrole)
      · exact is_meaningful_not_ai m hrole
    rw [hm]
    simpa using ih Hrest

/-- On a transcript whose AI messages are all empty, the third scan selects
nothing. -/
theorem extractScan3_none (l : List Msg)
    (H : ∀ m ∈ l, m.role = Role.ai → m.content = "") :
    ModulesAssistant.extractScan3 l = none := by
  induction l with
  | nil => rfl
  | cons m rest ih =>
    have Hrest : ∀ m' ∈ rest, m'.role = Role.ai → m'.content = "" :=
      fun m' hm' => H m' (List.mem_cons_of_mem m hm')
    unfold ModulesAssistant.extractScan3
    have hcond : ¬(m.role = Role.ai ∧ m.content ≠ "") := by
      rintro ⟨hrole, hc⟩
      exact hc (H m (List.mem_cons_self m rest) hrole)
    rw [if_neg hcond]
    exact ih Hrest

/-- `dispatchTools` never deletes messages: a successful result extends the
input message log. -/
theorem dispatchTools_mono (v a p : List (String × String) → String)
    (state : AssistantAgent.AgentState) (tcs : List ToolCallIntent)
    (r : AssistantAgent.AgentState)
    (h : AssistantAgent.dispatchTools v a p state tcs = Except.ok r) :
    state.messages <+: r.messages := by
  unfold AssistantAgent.dispatchTools at h
  split at h
  · injection h with h
    rw [← h]
  · injection h with h
    rw [← h]
    exact List.prefix_append _ _

/-- The scan of `ecommerce_assistant` is the first `find?` over the scanned
list for non-whitespace content (the truthiness of the raw content is
implied by that of the stripped content). -/
theorem ecommerceScan_eq_find (l : List Msg) :
    AssistantAgent.ecommerceScan l =
      (l.find? (fun m => pyStrip m.content != "")).map (fun m => m.content) := by
  induction l with
  | nil => rfl
  | cons m rest ih =>
    unfold AssistantAgent.ecommerceScan
    by_cases hp : pyStrip m.content = ""
    · have hc : ¬(m.content ≠ "" ∧ pyStrip m.content ≠ "") := by
        rintro ⟨_, hne⟩
        exact hne hp
      rw [if_neg hc, List.find?_cons_of_neg _ (by simp [hp]), ih]
    · have hcne : m.content ≠ "" := by
        intro hc
        apply hp
        rw [hc]
        rfl
      rw [if_pos ⟨hcne, hp⟩, List.find?_cons_of_pos _ (by simp [hp])]
      rfl

/-! Claim theorems. -/

/-- Claim C1, counterexample: for the intercepted `delete_product` call,
the modules `/assistant/chat` handler answers with `interruption.type`
equal to the fixed literal `"create_product"` and `interruption.args`
equal to the empty mapping — not the intercepted tool's name
`"delete_product"` and not its argument mapping `\x7b"sku": "ABC"\x7d`. -/
theorem modules_chat_interrupt_type_hardcoded :
    ModulesAssistant.chat_with_agent strv0 wfInterrupted reqS1 =
      ChatOutcome.interrupted "" ⟨"create_product", "", []⟩ ∧
    ("create_product" ≠ "delete_product" ∧
      ([] : List (String × String)) ≠ [("sku", "ABC")]) := by
  decide

/-- Claim C1, amended: the backend `/assistant/chat` handler does satisfy
the claim — for every interrupted workflow result its `interruption.type`
is the intercepted tool's name and `interruption.args` its argument
mapping — while the modules handler always answers with the fixed type
`"create_product"` and empty args. -/
theorem chat_interrupt_payload_amended :
    (∀ (strv : List InterruptValue → String)
        (wf : String → String → String → WorkflowResult)
        (req : ChatRequest) (sid : String) (i : Interrupt) (is : List Interrupt)
        (v : InterruptValue) (vs : List InterruptValue) (msgs : List Msg),
      req.session_id = some sid → sid ≠ "" →
      wf req.message "" sid = ⟨some (i :: is), msgs⟩ →
      i.value = v :: vs →
      BackendAssistant.chat_with_agent strv wf req =
        ChatOutcome.interrupted (strv i.value)
          ⟨v.action_request.action, v.description, v.action_request.args⟩) ∧
    (∀ (strv : List InterruptValue → String)
        (wf : String → String → WorkflowResult)
        (req : ChatRequest) (sid : String) (i : Interrupt) (is : List Interrupt)
        (msgs : List Msg),
      req.session_id = some sid → sid ≠ "" →
      wf req.message sid = ⟨some (i :: is), msgs⟩ →
      ModulesAssistant.chat_with_agent strv wf req =
        ChatOutcome.interrupted (strv i.value)
          ⟨"create_product", strv i.value, []⟩) := by
  constructor
  · intro strv wf req sid i is v vs msgs hsid hne hwf hval
    simp only [BackendAssistant.chat_with_agent, hsid, if_neg hne]
    simp only [BackendAssistant.chat_body, hwf, hval]
  · intro strv wf req sid i is msgs hsid hne hwf
    simp only [ModulesAssistant.chat_with_agent, hsid, if_neg hne]
    simp only [ModulesAssistant.chat_body, hwf]

/-- Claim C1, witness for the amended theorem at the concrete
`delete_product` interception. -/
theorem chat_interrupt_payload_amended_witness :
    BackendAssistant.chat_with_agent strv0 wfInterruptedB reqS1 =
      ChatOutcome.interrupted (strv0 deleteInterrupt.value)
        ⟨"delete_product", "About to execute delete_product with sku ABC",
          [("sku", "ABC")]⟩ :=
  chat_interrupt_payload_amended.1 strv0 wfInterruptedB reqS1 "s1"
    deleteInterrupt [] ⟨⟨"delete_product", [("sku", "ABC")]⟩,
      "About to execute delete_product with sku ABC"⟩ [] []
    rfl (by decide) rfl rfl

/-- Claim C2 (code bug): the extraction helpers are not total — on an AI
message whose `name` attribute is Python `None` (the langchain default),
both `extract_final_response` and `is_valid_ai_message` raise `TypeError`
inside `re.match`, because `getattr(msg, "name", "")` returns `None`
rather than the `""` default. -/
theorem extraction_not_total_on_none_name :
    ModulesAssistant.extract_final_response [aiMsg "hello" none] =
      Except.error PyError.typeError ∧
    BackendAssistant.is_valid_ai_message (aiMsg "hello" none) =
      Except.error PyError.typeError := by
  decide

/-- Claim C3 (confirmed): on the two-message supervisor/stock transcript,
extraction returns the stock agent's answer. -/
theorem extract_prefers_latest_agent_message :
    ModulesAssistant.extract_final_response
      [aiMsg "transferring to stock_agent" (some "supervisor"),
       aiMsg "Stock level for SKU123 is 42" (some "stock_agent")] =
      Except.ok "Stock level for SKU123 is 42" := by
  decide

/-- Claim C5 (code bug): the claimed case-insensitivity fails in the
backend streaming filter — content starting with capitalised
`"I have successfully"` passes `is_meaningful_response` (is not excluded),
because that phrase is tested against the raw content instead of the
lowered copy, while the modules `is_meaningful` does exclude the same
content. -/
theorem backend_filter_case_sensitivity :
    BackendAssistant.is_meaningful_response
      "I have successfully created the product." = true ∧
    ModulesAssistant.is_meaningful
      (aiMsg "I have successfully created the product." (some "product_agent")) =
      false := by
  decide

/-- Claim C8, counterexample: a tool-call intent naming the unbound tool
`delete_product` is not fatal at runtime — `call_tools` silently continues
the turn, appending the substitute result
`"Unknown tool: delete_product"` as a message. -/
theorem call_tools_unknown_tool_not_fatal :
    AssistantAgent.call_tools jsonLoads0 oracle0 oracle0 oracle0 unknownToolState =
      Except.ok
        ⟨unknownToolState.messages ++ [humanMsg "Unknown tool: delete_product"]⟩ := by
  decide

/-- Claim C4, counterexample: on the transcript whose only message is the
human message `"hello"` — non-empty content, free of every boilerplate
phrase — extraction returns the fallback string, not `"hello"`: a non-AI
message is never selected, because `is_meaningful` requires
`isinstance(msg, AIMessage)`. -/
theorem extract_second_pass_not_any_origin :
    ModulesAssistant.extract_final_response [humanMsg "hello"] =
      Except.ok "No meaningful response found." ∧
    "No meaningful response found." ≠ "hello" := by
  decide

/-- Claim C4, amended: the second pass drops only the `_agent` name
requirement, not the AI-role requirement — every string extraction returns
is the fallback literal or the stripped content of an AI message of the
transcript; and a filter-passing AI message whose name lacks the `_agent`
suffix is indeed returned by the fallback pass. -/
theorem extract_second_pass_ai_only :
    (∀ (msgs : List Msg) (s : String),
        ModulesAssistant.extract_final_response msgs = Except.ok s →
        s = "No meaningful response found." ∨
          ∃ m, m ∈ msgs ∧ m.role = Role.ai ∧ s = pyStrip m.content) ∧
    ModulesAssistant.extract_final_response [aiMsg "Hi there" (some "supervisor")] =
      Except.ok "Hi there" := by
  constructor
  · intro msgs s h
    unfold ModulesAssistant.extract_final_response at h
    split at h
    · simp at h
    · next r heq =>
      injection h with h
      obtain ⟨m, hm, hrest⟩ := extractScan1_mem msgs.reverse r heq
      exact Or.inr ⟨m, List.mem_reverse.mp hm, hrest.1, h ▸ hrest.2⟩
    · split at h
      · next r heq =>
        injection h with h
        obtain ⟨m, hm, hrest⟩ := extractScan2_mem msgs.reverse r heq
        exact Or.inr ⟨m, List.mem_reverse.mp hm, hrest.1, h ▸ hrest.2⟩
      · split at h
        · next r heq =>
          injection h with h
          obtain ⟨m, hm, hrest⟩ := extractScan3_mem msgs.reverse r heq
          exact Or.inr ⟨m, List.mem_reverse.mp hm, hrest.1, h ▸ hrest.2⟩
        · injection h with h
          exact Or.inl h.symm
  · decide

/-- Claim C4, witness for the amended theorem: instantiated at the
one-message supervisor transcript. -/
theorem extract_second_pass_ai_only_witness :
    "Hi there" = "No meaningful response found." ∨
      ∃ m, m ∈ [aiMsg "Hi there" (some "supervisor")] ∧ m.role = Role.ai ∧
        "Hi there" = pyStrip m.content :=
  extract_second_pass_ai_only.1 [aiMsg "Hi there" (some "supervisor")] "Hi there"
    (by decide)

/-- Claim C6, counterexample: on the spec's own instance — the transcript
holding a single `AIMessage(content="")`, whose `name` attribute is the
langchain default `None` — extraction raises `TypeError` instead of
returning the fallback string. -/
theorem empty_ai_transcript_raises :
    ModulesAssistant.extract_final_response [aiMsg "" none] =
      Except.error PyError.typeError ∧
    Except.error PyError.typeError ≠
      (Except.ok "No meaningful response found." : Except PyError String) := by
  decide

/-- Claim C6, amended: for every transcript in which every AI message has
empty content and a string-valued `name` attribute (not `None`),
`extract_final_response` returns the literal fallback string. -/
theorem empty_ai_transcript_fallback :
    ∀ msgs : List Msg,
      (∀ m ∈ msgs, m.role = Role.ai → m.content = "" ∧ m.name ≠ none) →
      ModulesAssistant.extract_final_response msgs =
        Except.ok "No meaningful response found." := by
  intro msgs H
  have H' : ∀ m ∈ msgs.reverse, m.role = Role.ai → m.content = "" ∧ m.name ≠ none :=
    fun m hm => H m (List.mem_reverse.mp hm)
  have H'' : ∀ m ∈ msgs.reverse, m.role = Role.ai → m.content = "" :=
    fun m hm hr => (H' m hm hr).1
  unfold ModulesAssistant.extract_final_response
  rw [extractScan1_none msgs.reverse H', extractScan2_none msgs.reverse H'',
    extractScan3_none msgs.reverse H'']

/-- Claim C6, witness for the amended theorem: an empty named AI message
next to a human message still yields the fallback. -/
theorem empty_ai_transcript_fallback_witness :
    ModulesAssistant.extract_final_response
      [aiMsg "" (some "stock_agent"), humanMsg "hi"] =
      Except.ok "No meaningful response found." :=
  empty_ai_transcript_fallback [aiMsg "" (some "stock_agent"), humanMsg "hi"]
    (by decide)

/-- Claim C7 (confirmed): a chat request whose session id is missing or
empty is answered by both `POST /assistant/chat` handlers with the 400
detail before any workflow call — they re-raise `HTTPException` ahead of
the catch-all — and the outcome is the same for every workflow function,
so no workflow execution (and hence no session-state change) can have
happened. -/
theorem missing_session_id_gives_400 :
    ∀ req : ChatRequest, req.session_id = none ∨ req.session_id = some "" →
      (∀ (strv : List InterruptValue → String)
          (wf : String → String → WorkflowResult),
        ModulesAssistant.chat_with_agent strv wf req =
          ChatOutcome.http400 "session_id is required") ∧
      (∀ (strv : List InterruptValue → String)
          (wf : String → String → String → WorkflowResult),
        BackendAssistant.chat_with_agent strv wf req =
          ChatOutcome.http400 "session_id is required") := by
  intro req h
  rcases h with h | h <;>
    refine ⟨fun strv wf => ?_, fun strv wf => ?_⟩ <;>
      simp [ModulesAssistant.chat_with_agent, BackendAssistant.chat_with_agent, h]

/-- Claim C7, witness: the missing-session request is rejected. -/
theorem missing_session_id_gives_400_witness :
    ModulesAssistant.chat_with_agent strv0 wfInterrupted ⟨none, "hi"⟩ =
      ChatOutcome.http400 "session_id is required" :=
  (missing_session_id_gives_400 ⟨none, "hi"⟩ (Or.inl rfl)).1 strv0 wfInterrupted

/-- Claim C8, amended: a tool-call intent naming a tool outside the bound
set is handled, not fatal — `call_tools` appends the substitute result
message `"Unknown tool: <name>"` and the turn continues. -/
theorem call_tools_unknown_tool_substitute :
    ∀ (jl : String → Except PyError (List (String × String)))
      (v a p : List (String × String) → String)
      (state : AssistantAgent.AgentState) (m : Msg) (tname : String)
      (targs : List (String × String)),
      state.messages.getLast? = some m →
      m.tool_calls = [⟨tname, targs⟩] →
      tname ≠ "ViewProduct" → tname ≠ "AddToCart" → tname ≠ "PlaceOrder" →
      AssistantAgent.call_tools jl v a p state =
        Except.ok ⟨state.messages ++ [humanMsg ("Unknown tool: " ++ tname)]⟩ := by
  intro jl v a p state m tname targs hlast htc h1 h2 h3
  simp [AssistantAgent.call_tools, AssistantAgent.dispatchTools,
    AssistantAgent.runTool, hlast, htc, h1, h2, h3]

/-- Claim C8, witness for the amended theorem at a second unbound tool
name. -/
theorem call_tools_unknown_tool_substitute_witness :
    AssistantAgent.call_tools jsonLoads0 oracle0 oracle0 oracle0 nukeToolState =
      Except.ok ⟨nukeToolState.messages ++ [humanMsg ("Unknown tool: " ++ "NukeDB")]⟩ :=
  call_tools_unknown_tool_substitute jsonLoads0 oracle0 oracle0 oracle0
    nukeToolState (Msg.mk Role.ai "" none [⟨"NukeDB", []⟩] none) "NukeDB" []
    (by decide) rfl (by decide) (by decide) (by decide)

/-- Claim C9 (confirmed): `call_tools` only appends — when the last message
carries neither a tool-call nor a legacy `function_call` entry the state is
returned unchanged, and every successful result has the input message list
as a prefix of its message list. -/
theorem call_tools_append_only :
    (∀ (jl : String → Except PyError (List (String × String)))
        (v a p : List (String × String) → String)
        (state : AssistantAgent.AgentState) (m : Msg),
      state.messages.getLast? = some m → m.tool_calls = [] →
      m.function_call = none →
      AssistantAgent.call_tools jl v a p state = Except.ok state) ∧
    (∀ (jl : String → Except PyError (List (String × String)))
        (v a p : List (String × String) → String)
        (state r : AssistantAgent.AgentState),
      AssistantAgent.call_tools jl v a p state = Except.ok r →
      state.messages <+: r.messages) := by
  constructor
  · intro jl v a p state m hlast htc hfc
    simp [AssistantAgent.call_tools, AssistantAgent.dispatchTools, hlast, htc, hfc]
  · intro jl v a p state r h
    unfold AssistantAgent.call_tools at h
    split at h
    · simp at h
    · split at h
      · split at h
        · split at h
          · simp at h
          · exact dispatchTools_mono v a p state _ r h
        · exact dispatchTools_mono v a p state _ r h
      · exact dispatchTools_mono v a p state _ r h

/-- Claim C9, witness: a state whose last message has no tool intent passes
through unchanged, and its log is a prefix of itself. -/
theorem call_tools_append_only_witness :
    AssistantAgent.call_tools jsonLoads0 oracle0 oracle0 oracle0
        (AssistantAgent.AgentState.mk [humanMsg "hi"]) =
      Except.ok (AssistantAgent.AgentState.mk [humanMsg "hi"]) ∧
    (AssistantAgent.AgentState.mk [humanMsg "hi"]).messages <+:
      (AssistantAgent.AgentState.mk [humanMsg "hi"]).messages := by
  have h1 := call_tools_append_only.1 jsonLoads0 oracle0 oracle0 oracle0
    (AssistantAgent.AgentState.mk [humanMsg "hi"]) (humanMsg "hi")
    (by decide) rfl rfl
  exact ⟨h1, call_tools_append_only.2 jsonLoads0 oracle0 oracle0 oracle0 _ _ h1⟩

/-- Claim C10 (confirmed): the selection of `ecommerce_assistant` is
exactly the policy the claim words — most recent message of any role with
non-whitespace content, else its own distinct fallback string — and it is
weaker than the main extraction policy: the human message `"hi"` is
returned by it but not by `extract_final_response`. -/
theorem ecommerce_assistant_extraction_policy :
    (∀ msgs : List Msg,
        AssistantAgent.ecommerce_assistant msgs =
          AssistantAgent.ecommerce_assistant_policy msgs) ∧
    AssistantAgent.ecommerce_assistant [humanMsg "hi"] = "hi" ∧
    ModulesAssistant.extract_final_response [humanMsg "hi"] =
      Except.ok "No meaningful response found." := by
  refine ⟨fun msgs => ?_, by decide, by decide⟩
  unfold AssistantAgent.ecommerce_assistant AssistantAgent.ecommerce_assistant_policy
  rw [ecommerceScan_eq_find]
  cases msgs.reverse.find? fun m => pyStrip m.content != "" <;> rfl

